import Mathlib

/-!
Verification of the authentication and access-control core of the
DevSecOps task-manager API against its specification.

The repository snapshot ships the HTTP wiring (src/server.ts), the database
wiring, and the full unit/integration test suites, while the controller and
service sources (src/auth/auth.controller.ts, src/auth/auth.service.ts,
src/tasks/tasks.controller.ts, src/tasks/tasks.service.ts,
src/config/rate-limiter.ts, src/middleware) are absent from the snapshot.
Those components are modelled here from the specification, with branch order
and response payloads pinned by the in-repository test suites wherever the
tests observe them.
-/

namespace DevSecOps

/-! ## Credential Hasher (bcryptjs model) -/

/-- Modelled from the spec: the Credential Hasher (bcryptjs, consumed by the
absent src/auth/auth.controller.ts). A stored digest either has the bcrypt
shape, embedding cost, salt and derived key, or is malformed. -/
inductive DigestShape where
  | wellFormed (cost : Nat) (salt : String) (key : String)
  | malformed (raw : String)
deriving Repr, DecidableEq

/-- Modelled from the spec: the one-way key derivation inside the hasher.
The derived key determines (salt, cost, plaintext) symbolically; one-wayness
is not modelled, only the algebra of hash/verify. -/
def bcryptKdf (cost : Nat) (salt pw : String) : String :=
  salt ++ ":" ++ toString cost ++ ":" ++ pw

/-- Modelled from the spec: hash(plaintext) with an explicit salt argument
standing for the per-call random salt embedded in the output. -/
def bcryptHash (cost : Nat) (salt pw : String) : DigestShape :=
  .wellFormed cost salt (bcryptKdf cost salt pw)

/-- Modelled from the spec: verify(plaintext, digest). It recomputes the key
from the salt and cost embedded in the digest; a malformed digest yields
false (the function is total, so it never throws). -/
def bcryptCompare (pw : String) : DigestShape → Bool
  | .wellFormed cost salt key => key == bcryptKdf cost salt pw
  | .malformed _ => false

/-- Key stored in a digest, when the digest is well formed. -/
def DigestShape.key? : DigestShape → Option String
  | .wellFormed _ _ key => some key
  | .malformed _ => none

/-! ## Token Service (jsonwebtoken model) -/

/-- Claims carried by an identity token, as observed by the task controller
unit tests (user_id, fullname, email, role; exp kept in the token). -/
structure Claims where
  user_id : Nat
  fullname : String
  email : String
  role : String
deriving Repr, DecidableEq

/-- Symbolic signature: a MAC is determined by the secret and the payload it
signs, so signature equality coincides with equality of both. -/
structure Mac where
  secret : String
  claims : Claims
  iat : Nat
  exp : Nat
deriving Repr, DecidableEq

/-- Modelled from the spec: a compact token is either a signed triple of
claims, issued-at and expiry together with its signature, or a malformed
string. -/
inductive TokenShape where
  | signed (claims : Claims) (iat exp : Nat) (mac : Mac)
  | malformed (raw : String)
deriving Repr, DecidableEq

/-- Modelled from the spec: issue(claims, secret, ttl) at time now produces a
signed token with expiry now + ttl. -/
def issueToken (secret : String) (c : Claims) (now ttl : Nat) : TokenShape :=
  .signed c now (now + ttl) ⟨secret, c, now, now + ttl⟩

/-- Outcome of token verification; the invalid/expired distinction is
internal only. -/
inductive VerifyOutcome where
  | ok (c : Claims)
  | invalid
  | expired
deriving Repr, DecidableEq

/-- Modelled from the spec: verify(token, secret) rejects tokens with a bad
signature or malformed structure, and tokens whose expiry is at or before
the current time. -/
def verifyToken (secret : String) (now : Nat) : TokenShape → VerifyOutcome
  | .malformed _ => .invalid
  | .signed c iat exp mac =>
    if mac = ⟨secret, c, iat, exp⟩ then
      if exp ≤ now then .expired else .ok c
    else .invalid

/-! ## Access Control Layer (bearer-token guard) -/

/-- Result of running a protected route: either the short-circuit 401 or the
value produced by the downstream handler on the verified claims. -/
inductive Guarded (α : Type) where
  | unauthorized
  | handled (a : α)
deriving Repr, DecidableEq

/-- Modelled from the spec: the authentication middleware extracts the bearer
token, verifies it, and short-circuits with 401 when the token is missing or
fails verification; otherwise it passes the verified claims downstream. -/
def protect {α : Type} (secret : String) (now : Nat)
    (tok : Option TokenShape) (handler : Claims → α) : Guarded α :=
  match tok with
  | none => .unauthorized
  | some t =>
    match verifyToken secret now t with
    | .ok c => .handled (handler c)
    | .invalid => .unauthorized
    | .expired => .unauthorized

/-- HTTP status of a guarded response, given the status of handled values. -/
def Guarded.status {α : Type} (inner : α → Nat) : Guarded α → Nat
  | .unauthorized => 401
  | .handled a => inner a

/-! ## Account Directory and auth controllers -/

/-- Account row of the users table (src tests insert exactly these fields;
the password column stores the bcrypt digest). -/
structure User where
  id : Nat
  fullname : String
  email : String
  password : DigestShape
  role : String
  isActive : Bool
deriving Repr, DecidableEq

/-- Registration request body, as sent by the integration tests. -/
structure RegisterInput where
  fullname : String
  email : String
  password : String
  role : String
deriving Repr, DecidableEq

/-- Lowercasing of an email for case-insensitive comparison (the model of
toLowerCase: every character mapped to its lowercase form). -/
def lowerStr (s : String) : String :=
  ⟨s.data.map Char.toLower⟩

/-- Modelled from the spec: findByEmail over the users table, comparing
emails case-insensitively (the spec calls the email column case-normalized
and the duplicate check case-insensitive; src/auth/auth.service.ts is absent
from the snapshot). -/
def findUserByEmail (store : List User) (email : String) : Option User :=
  store.find? (fun u => lowerStr u.email == lowerStr email)

/-- Sanitized account object returned by register, login and the admin
listing, as a flat JSON object: exactly id, fullname, email and role (the
integration tests assert the password key is absent). -/
def sanitizeUser (u : User) : List (String × String) :=
  [("id", toString u.id), ("fullname", u.fullname),
   ("email", u.email), ("role", u.role)]

/-- Response of the registration controller. -/
inductive RegisterResponse where
  | conflict
  | created (body : List (String × String))
deriving Repr, DecidableEq

/-- HTTP status of a registration response (tests: 400 on duplicate, 201 on
success). -/
def RegisterResponse.status : RegisterResponse → Nat
  | .conflict => 400
  | .created _ => 201

/-- Account row persisted by a successful registration: the submitted
fields, the bcrypt digest of the password at cost 10, and the active flag
defaulted to true. -/
def registeredUser (nid : Nat) (salt : String) (inp : RegisterInput) : User :=
  ⟨nid, inp.fullname, inp.email, bcryptHash 10 salt inp.password,
   inp.role, true⟩

/-- Modelled from the spec: createUserController
(src/auth/auth.controller.ts is absent from the snapshot; the unit tests in
the repository pin the flow: look up the email, answer 400 User already
exists when present, otherwise hash the password with cost 10 and persist
with isActive set to true, answering 201 with the sanitized user). The salt
argument stands for the random salt of the hashing call, nextId for the id
the store assigns. -/
def createUserController (store : List User) (nextId : Nat) (salt : String)
    (inp : RegisterInput) : RegisterResponse × List User :=
  match findUserByEmail store inp.email with
  | some _ => (.conflict, store)
  | none =>
    (.created (sanitizeUser (registeredUser nextId salt inp)),
     store ++ [registeredUser nextId salt inp])

/-- Response of the login controller. -/
inductive LoginResponse where
  | notFound
  | deactivated
  | invalidCredentials
  | success (token : TokenShape) (user : List (String × String))
deriving Repr, DecidableEq

/-- HTTP status of a login response, as asserted by the auth tests. -/
def LoginResponse.status : LoginResponse → Nat
  | .notFound => 404
  | .deactivated => 403
  | .invalidCredentials => 401
  | .success _ _ => 200

/-- Claims embedded in the token issued at login. -/
def userClaims (u : User) : Claims :=
  ⟨u.id, u.fullname, u.email, u.role⟩

/-- Modelled from the spec: loginUserController
(src/auth/auth.controller.ts is absent from the snapshot). Branch order is
pinned by the repository unit tests: the deactivated-account test passes
while bcrypt.compare is left resolving to false, so the activation check
runs before the password comparison; the order is lookup, then activation,
then password, then token issuance. -/
def loginUserController (store : List User) (secret : String) (now ttl : Nat)
    (email pw : String) : LoginResponse :=
  match store.find? (fun u => u.email == email) with
  | none => .notFound
  | some u =>
    if !u.isActive then .deactivated
    else if !(bcryptCompare pw u.password) then .invalidCredentials
    else .success (issueToken secret (userClaims u) now ttl)
      [("user_id", toString u.id), ("fullname", u.fullname),
       ("email", u.email), ("role", u.role)]

/-- Modelled from the spec: the admin listing GET /auth/users maps every
stored account to its sanitized object (the integration test asserts each
element has id, fullname, email and role and no password key). -/
def listUsersSanitized (store : List User) : List (List (String × String)) :=
  store.map sanitizeUser

/-- Modelled from the spec: the catch branch of the auth controllers, pinned
by the unit test for service errors: status 500 with the message of the
caught error echoed as the error field. -/
def authControllerCatch (msg : String) : Nat × List (String × String) :=
  (500, [("error", msg)])

/-- Modelled from the spec: the catch branch of the task controller, pinned
by its unit test: status 500 with the fixed body error Failed to fetch
tasks. -/
def tasksControllerCatch : Nat × List (String × String) :=
  (500, [("error", "Failed to fetch tasks")])

/-! ## Task service and controller -/

/-- Task row of the tasks table (fields as inserted by the integration
tests; status and priority are stored as strings and validated at the
controller boundary). -/
structure Task where
  id : Nat
  title : String
  description : Option String
  status : String
  priority : String
  userId : Nat
  categoryId : Option Nat
  completed : Bool
deriving Repr, DecidableEq

/-- Ownership-scoped point match: the row with the requested id that belongs
to the requesting account. -/
def taskMatch (ownerId taskId : Nat) (t : Task) : Bool :=
  t.id == taskId && t.userId == ownerId

/-- Modelled from the spec: getTaskById(ownerId, taskId) selects by id and
owner together, so a foreign-owned row is indistinguishable from an absent
one (src/tasks/tasks.service.ts is absent from the snapshot). -/
def getTaskById (store : List Task) (ownerId taskId : Nat) : Option Task :=
  store.find? (taskMatch ownerId taskId)

/-- Modelled from the spec: getAllTasks(ownerId) lists only the rows owned
by the requesting account. -/
def getAllTasks (store : List Task) (ownerId : Nat) : List Task :=
  store.filter (fun t => t.userId == ownerId)

/-- Point-lookup response of GET /tasks/:id (404 body pinned by the
integration tests as error Task not found). -/
inductive TaskGetResponse where
  | ok (t : Task)
  | notFound
deriving Repr, DecidableEq

/-- HTTP status of a point-lookup response. -/
def TaskGetResponse.status : TaskGetResponse → Nat
  | .ok _ => 200
  | .notFound => 404

/-- Modelled from the spec: the GET /tasks/:id controller answers the row on
a scoped hit and 404 otherwise. -/
def getTaskByIdController (store : List Task) (ownerId taskId : Nat) :
    TaskGetResponse :=
  match getTaskById store ownerId taskId with
  | some t => .ok t
  | none => .notFound

/-- Outcome of a task mutation (update, delete). -/
inductive MutationOutcome where
  | ok
  | notFound
deriving Repr, DecidableEq

/-- HTTP status of a mutation outcome. -/
def MutationOutcome.status : MutationOutcome → Nat
  | .ok => 200
  | .notFound => 404

/-- Modelled from the spec: updateTask(ownerId, taskId, patch) rewrites the
scoped row when it exists and reports NotFound otherwise; the patch argument
stands for the patched fields. -/
def updateTask (store : List Task) (ownerId taskId : Nat)
    (patch : Task → Task) : MutationOutcome × List Task :=
  match getTaskById store ownerId taskId with
  | none => (.notFound, store)
  | some _ =>
    (.ok, store.map (fun t => if taskMatch ownerId taskId t then patch t else t))

/-- Modelled from the spec: deleteTask(ownerId, taskId) removes the scoped
row when it exists and reports NotFound otherwise. -/
def deleteTask (store : List Task) (ownerId taskId : Nat) :
    MutationOutcome × List Task :=
  match getTaskById store ownerId taskId with
  | none => (.notFound, store)
  | some _ => (.ok, store.filter (fun t => !taskMatch ownerId taskId t))

/-- Priority enum check of the task controller (tests accept exactly LOW,
MEDIUM, HIGH). -/
def validPriority (p : String) : Bool :=
  p == "LOW" || p == "MEDIUM" || p == "HIGH"

/-- Response of GET /tasks/priority/:priority. -/
inductive PriorityResponse where
  | badRequest (body : List (String × String))
  | ok (tasks : List Task)
deriving Repr, DecidableEq

/-- HTTP status of a priority-listing response. -/
def PriorityResponse.status : PriorityResponse → Nat
  | .badRequest _ => 400
  | .ok _ => 200

/-- Modelled from the spec: getTasksByPriority validates the priority value
against the enum before any store access (unit test pins the 400 body as
error Invalid priority value) and otherwise lists the owned rows with that
priority. -/
def getTasksByPriorityController (store : List Task) (ownerId : Nat)
    (p : String) : PriorityResponse :=
  if validPriority p then
    .ok (store.filter (fun t => t.userId == ownerId && t.priority == p))
  else
    .badRequest [("error", "Invalid priority value")]

/-! ## Rate Limiter Gate and request pipeline -/

/-- Fixed-window counter state for one client key. -/
structure WindowState where
  windowStart : Nat
  count : Nat
deriving Repr, DecidableEq

/-- Rate limiter configuration: window duration and request cap. -/
structure LimiterConfig where
  window : Nat
  max : Nat
deriving Repr, DecidableEq

/-- Admission verdict of the gate. -/
inductive Admit where
  | allowed
  | rejected
deriving Repr, DecidableEq

/-- Modelled from the spec: the admission check of the Rate Limiter Gate
(src/config/rate-limiter.ts is absent from the snapshot). A client with no
live window, or whose window has elapsed, starts a fresh window with count
one; inside a live window the request is admitted while the count is below
the cap and rejected once the cap is reached. -/
def admitStep (cfg : LimiterConfig) (st : Option WindowState) (now : Nat) :
    Admit × WindowState :=
  match st with
  | none => (.allowed, ⟨now, 1⟩)
  | some w =>
    if w.windowStart + cfg.window ≤ now then (.allowed, ⟨now, 1⟩)
    else if w.count < cfg.max then (.allowed, ⟨w.windowStart, w.count + 1⟩)
    else (.rejected, w)

/-- Verdicts and final window state for a sequence of request times of one
client. -/
def admitAll (cfg : LimiterConfig) (st : Option WindowState) :
    List Nat → List Admit × Option WindowState
  | [] => ([], st)
  | t :: ts =>
    let step := admitStep cfg st t
    let rest := admitAll cfg (some step.2) ts
    (step.1 :: rest.1, rest.2)

/-- Request pipeline of src/server.ts: the rate limiter middleware is
mounted before the auth and task routers, so a rejected request is answered
with 429 and the downstream handler (all account and token logic) is not
consulted. -/
def appPipeline {α : Type} (cfg : LimiterConfig) (st : Option WindowState)
    (now : Nat) (downstream : Unit → α) : (Nat ⊕ α) × WindowState :=
  let step := admitStep cfg st now
  match step.1 with
  | .rejected => (Sum.inl 429, step.2)
  | .allowed => (Sum.inr (downstream ()), step.2)

/-! ## Shared lemmas -/

/-- Appending on the left is cancellative for strings. -/
theorem string_append_left_cancel {a b c : String} (h : a ++ b = a ++ c) :
    b = c := by
  have hd : (a ++ b).data = (a ++ c).data := congrArg String.data h
  simp [String.data_append] at hd
  exact String.ext hd

/-- The key derivation is injective in the plaintext for a fixed salt and
cost. -/
theorem bcryptKdf_inj_pw {cost : Nat} {salt p q : String}
    (h : bcryptKdf cost salt p = bcryptKdf cost salt q) : p = q :=
  string_append_left_cancel h

/-- The derived key is never the plaintext itself: the digest embeds the
salt and cost in front of the derived material, so it is strictly longer. -/
theorem bcryptKdf_ne_pw (cost : Nat) (salt pw : String) :
    bcryptKdf cost salt pw ≠ pw := by
  intro h
  have hl := congrArg String.length h
  simp [bcryptKdf, String.length_append] at hl
  exact absurd hl.2 (by decide)

/-- C4. For any plaintext, verifying it against its own digest succeeds;
verifying any other plaintext against that digest fails; hashing the same
plaintext under two distinct salts yields distinct digests; and verification
of a malformed digest returns false (totally, never throwing). -/
theorem claim_C4_credential_hasher (cost : Nat)
    (salt salt1 salt2 pw other : String) :
    bcryptCompare pw (bcryptHash cost salt pw) = true
    ∧ (other ≠ pw → bcryptCompare other (bcryptHash cost salt pw) = false)
    ∧ (salt1 ≠ salt2 → bcryptHash cost salt1 pw ≠ bcryptHash cost salt2 pw)
    ∧ (∀ raw, bcryptCompare pw (DigestShape.malformed raw) = false) := by
  refine ⟨?_, ?_, ?_, ?_⟩
  · simp [bcryptCompare, bcryptHash]
  · intro hne
    simp only [bcryptCompare, bcryptHash]
    rw [beq_eq_false_iff_ne]
    intro h
    exact hne (bcryptKdf_inj_pw h.symm)
  · intro hne hcontra
    exact hne (DigestShape.wellFormed.injEq .. ▸ congrArg id hcontra).2.1
  · intro raw
    rfl

/-- Witness for C4 at concrete inputs. -/
theorem claim_C4_credential_hasher_witness :
    bcryptCompare "password123" (bcryptHash 10 "saltA" "password123") = true
    ∧ bcryptCompare "wrongpassword" (bcryptHash 10 "saltA" "password123") = false
    ∧ bcryptHash 10 "saltA" "password123" ≠ bcryptHash 10 "saltB" "password123"
    ∧ bcryptCompare "password123" (DigestShape.malformed "not-a-digest") = false := by
  obtain ⟨h1, h2, h3, h4⟩ :=
    claim_C4_credential_hasher 10 "saltA" "saltA" "saltB" "password123" "wrongpassword"
  exact ⟨h1, h2 (by decide), h3 (by decide), h4 "not-a-digest"⟩

/-- C7 (amended). A token issued with TTL t verifies, yielding its claims,
at every time strictly before issuance + t; it fails at issuance + t and at
every later time (the service rejects expiry at or before now); it fails
under a different secret (bad signature) and on malformed structure; and a
protected endpoint answers 401 whenever the bearer token is missing or
fails verification. -/
theorem claim_C7_token_lifecycle (secret secret2 : String) (c : Claims)
    (iat ttl now : Nat) :
    (now < iat + ttl →
      verifyToken secret now (issueToken secret c iat ttl) = .ok c)
    ∧ (iat + ttl ≤ now →
      verifyToken secret now (issueToken secret c iat ttl) = .expired)
    ∧ (secret2 ≠ secret →
      verifyToken secret2 now (issueToken secret c iat ttl) = .invalid)
    ∧ (∀ raw, verifyToken secret now (TokenShape.malformed raw) = .invalid)
    ∧ (∀ (α : Type) (handler : Claims → α),
        protect secret now none handler = .unauthorized)
    ∧ (∀ (α : Type) (handler : Claims → α) (tok : TokenShape),
        (∀ cl, verifyToken secret now tok ≠ .ok cl) →
        protect secret now (some tok) handler = .unauthorized)
    ∧ (∀ (α : Type) (inner : α → Nat),
        Guarded.status inner (Guarded.unauthorized : Guarded α) = 401) := by
  refine ⟨?_, ?_, ?_, ?_, ?_, ?_, ?_⟩
  · intro hlt
    have hno : ¬(iat + ttl ≤ now) := by omega
    simp [verifyToken, issueToken, hno]
  · intro hle
    simp [verifyToken, issueToken, hle]
  · intro hne
    have hm : (⟨secret, c, iat, iat + ttl⟩ : Mac) ≠ ⟨secret2, c, iat, iat + ttl⟩ := by
      intro h
      exact hne (congrArg Mac.secret h).symm
    simp [verifyToken, issueToken, hm]
  · intro raw
    rfl
  · intro α handler
    rfl
  · intro α handler tok hfail
    cases hv : verifyToken secret now tok with
    | ok cl => exact absurd hv (hfail cl)
    | invalid => simp [protect, hv]
    | expired => simp [protect, hv]
  · intro α inner
    rfl

/-- C7 counterexample: a token issued at time 0 with TTL 60 already fails
verification at time 60 = issuance + TTL (expiry at or before now is
rejected), so the token is not accepted at every time up to issuance + TTL
as the claim states. -/
theorem claim_C7_counterexample :
    verifyToken "test-jwt-secret-key" 60
      (issueToken "test-jwt-secret-key"
        ⟨1, "John Doe", "john@example.com", "user"⟩ 0 60) = .expired
    ∧ ∀ cl, VerifyOutcome.expired ≠ VerifyOutcome.ok cl := by
  constructor
  · rfl
  · intro cl h
    exact VerifyOutcome.noConfusion h

/-- Witness for C7 at concrete inputs. -/
theorem claim_C7_token_lifecycle_witness :
    verifyToken "test-jwt-secret-key" 30
      (issueToken "test-jwt-secret-key"
        ⟨1, "John Doe", "john@example.com", "user"⟩ 0 60)
      = .ok ⟨1, "John Doe", "john@example.com", "user"⟩
    ∧ verifyToken "test-jwt-secret-key" 61
      (issueToken "test-jwt-secret-key"
        ⟨1, "John Doe", "john@example.com", "user"⟩ 0 60) = .expired
    ∧ verifyToken "wrong-secret" 30
      (issueToken "test-jwt-secret-key"
        ⟨1, "John Doe", "john@example.com", "user"⟩ 0 60) = .invalid
    ∧ verifyToken "test-jwt-secret-key" 30
      (TokenShape.malformed "invalid-token") = .invalid
    ∧ protect "test-jwt-secret-key" 30 none (fun _ => (0 : Nat))
      = .unauthorized := by
  obtain ⟨h1, -, h3, h4, h5, -, -⟩ :=
    claim_C7_token_lifecycle "test-jwt-secret-key" "wrong-secret"
      ⟨1, "John Doe", "john@example.com", "user"⟩ 0 60 30
  obtain ⟨-, h2, -, -, -, -, -⟩ :=
    claim_C7_token_lifecycle "test-jwt-secret-key" "wrong-secret"
      ⟨1, "John Doe", "john@example.com", "user"⟩ 0 60 61
  exact ⟨h1 (by omega), h2 (by omega), h3 (by decide), h4 "invalid-token",
    h5 Nat (fun _ => 0)⟩

/-- C2 (amended). The login flow proceeds in this order: lookup by email,
answering NotFound (404) when no account has that email; then the
activation check, answering Forbidden (403) when active is false; then
password verification, answering Unauthorized (401) on mismatch; only when
all three pass is a token issued with a 200 response. In particular a
deactivated account yields Forbidden regardless of the submitted
password. -/
theorem claim_C2_login_flow (store : List User) (secret : String)
    (now ttl : Nat) (email pw : String) :
    (store.find? (fun v => v.email == email) = none →
      loginUserController store secret now ttl email pw = .notFound)
    ∧ (∀ u, store.find? (fun v => v.email == email) = some u →
        u.isActive = false →
        loginUserController store secret now ttl email pw = .deactivated)
    ∧ (∀ u, store.find? (fun v => v.email == email) = some u →
        u.isActive = true → bcryptCompare pw u.password = false →
        loginUserController store secret now ttl email pw = .invalidCredentials)
    ∧ (∀ u, store.find? (fun v => v.email == email) = some u →
        u.isActive = true → bcryptCompare pw u.password = true →
        loginUserController store secret now ttl email pw =
          .success (issueToken secret (userClaims u) now ttl)
            [("user_id", toString u.id), ("fullname", u.fullname),
             ("email", u.email), ("role", u.role)])
    ∧ LoginResponse.notFound.status = 404
    ∧ LoginResponse.deactivated.status = 403
    ∧ LoginResponse.invalidCredentials.status = 401
    ∧ (∀ tok body, (LoginResponse.success tok body).status = 200) := by
  refine ⟨?_, ?_, ?_, ?_, rfl, rfl, rfl, fun tok body => rfl⟩
  · intro hfind
    simp [loginUserController, hfind]
  · intro u hfind hact
    simp [loginUserController, hfind, hact]
  · intro u hfind hact hcmp
    simp [loginUserController, hfind, hact, hcmp]
  · intro u hfind hact hcmp
    simp [loginUserController, hfind, hact, hcmp]

/-- C2 counterexample: for a deactivated account, a login attempt with a
wrong password is answered Forbidden (403, account deactivated), not
Unauthorized (401): the activation check runs before the password
comparison, contrary to the order the claim states. -/
theorem claim_C2_counterexample :
    loginUserController
      [⟨1, "John Doe", "john@example.com",
        bcryptHash 10 "saltA" "password123", "user", false⟩]
      "test-jwt-secret-key" 0 3600 "john@example.com" "wrongpassword"
      = .deactivated
    ∧ LoginResponse.deactivated ≠ LoginResponse.invalidCredentials
    ∧ LoginResponse.deactivated.status = 403 := by
  refine ⟨by decide, by decide, rfl⟩

/-- Witness for C2 at concrete inputs: the successful path issues a token
for the stored account. -/
theorem claim_C2_login_flow_witness :
    loginUserController
      [⟨1, "John Doe", "john@example.com",
        bcryptHash 10 "saltA" "password123", "user", true⟩]
      "test-jwt-secret-key" 0 3600 "john@example.com" "password123"
      = .success
          (issueToken "test-jwt-secret-key"
            ⟨1, "John Doe", "john@example.com", "user"⟩ 0 3600)
          [("user_id", "1"), ("fullname", "John Doe"),
           ("email", "john@example.com"), ("role", "user")] := by
  obtain ⟨-, -, -, h4, -, -, -, -⟩ :=
    claim_C2_login_flow
      [⟨1, "John Doe", "john@example.com",
        bcryptHash 10 "saltA" "password123", "user", true⟩]
      "test-jwt-secret-key" 0 3600 "john@example.com" "password123"
  exact h4
    ⟨1, "John Doe", "john@example.com",
      bcryptHash 10 "saltA" "password123", "user", true⟩
    (by decide) rfl (by decide)

/-- C5. When no account holds the submitted email, registration answers 201
with a sanitized account object whose keys are exactly id, fullname, email
and role (no password field); the persisted account stores the bcrypt
digest of the password, whose derived key differs from the plaintext, and
is created with the active flag set to true. -/
theorem claim_C5_registration_success (store : List User) (nextId : Nat)
    (salt : String) (inp : RegisterInput)
    (hfresh : findUserByEmail store inp.email = none) :
    (createUserController store nextId salt inp).1
      = .created (sanitizeUser (registeredUser nextId salt inp))
    ∧ (createUserController store nextId salt inp).1.status = 201
    ∧ (sanitizeUser (registeredUser nextId salt inp)).map Prod.fst
      = ["id", "fullname", "email", "role"]
    ∧ (∀ kv ∈ sanitizeUser (registeredUser nextId salt inp),
        kv.1 ≠ "password")
    ∧ (createUserController store nextId salt inp).2
      = store ++ [registeredUser nextId salt inp]
    ∧ (registeredUser nextId salt inp).password
      = bcryptHash 10 salt inp.password
    ∧ (registeredUser nextId salt inp).password.key? ≠ some inp.password
    ∧ (registeredUser nextId salt inp).isActive = true := by
  refine ⟨?_, ?_, rfl, ?_, ?_, rfl, ?_, rfl⟩
  · simp [createUserController, hfresh]
  · simp [createUserController, hfresh, RegisterResponse.status]
  · intro kv hkv
    have hmem : kv.1 ∈ ["id", "fullname", "email", "role"] :=
      List.mem_map_of_mem Prod.fst hkv
    intro hcontra
    rw [hcontra] at hmem
    exact absurd hmem (by decide)
  · simp [createUserController, hfresh]
  · simp only [registeredUser, bcryptHash, DigestShape.key?, ne_eq,
      Option.some.injEq]
    exact bcryptKdf_ne_pw 10 salt inp.password

/-- Witness for C5 at concrete inputs. -/
theorem claim_C5_registration_success_witness :
    (createUserController [] 1 "saltA"
        ⟨"John Doe", "john@example.com", "password123", "user"⟩).1
      = .created (sanitizeUser (registeredUser 1 "saltA"
          ⟨"John Doe", "john@example.com", "password123", "user"⟩))
    ∧ (createUserController [] 1 "saltA"
        ⟨"John Doe", "john@example.com", "password123", "user"⟩).1.status = 201
    ∧ (sanitizeUser (registeredUser 1 "saltA"
        ⟨"John Doe", "john@example.com", "password123", "user"⟩)).map Prod.fst
      = ["id", "fullname", "email", "role"]
    ∧ (∀ kv ∈ sanitizeUser (registeredUser 1 "saltA"
        ⟨"John Doe", "john@example.com", "password123", "user"⟩),
        kv.1 ≠ "password")
    ∧ (createUserController [] 1 "saltA"
        ⟨"John Doe", "john@example.com", "password123", "user"⟩).2
      = [] ++ [registeredUser 1 "saltA"
          ⟨"John Doe", "john@example.com", "password123", "user"⟩]
    ∧ (registeredUser 1 "saltA"
        ⟨"John Doe", "john@example.com", "password123", "user"⟩).password
      = bcryptHash 10 "saltA" "password123"
    ∧ (registeredUser 1 "saltA"
        ⟨"John Doe", "john@example.com", "password123", "user"⟩).password.key?
      ≠ some "password123"
    ∧ (registeredUser 1 "saltA"
        ⟨"John Doe", "john@example.com", "password123", "user"⟩).isActive
      = true :=
  claim_C5_registration_success [] 1 "saltA"
    ⟨"John Doe", "john@example.com", "password123", "user"⟩ rfl

/-- C6. Registering a second time with the same email, compared
case-insensitively, is answered Conflict (400) and creates no duplicate:
the store is unchanged by the failed second attempt, and exactly one
account with that email exists, namely the one the first registration
created. -/
theorem claim_C6_duplicate_registration (store : List User)
    (nid1 nid2 : Nat) (s1 s2 : String) (inp1 inp2 : RegisterInput)
    (hfresh : findUserByEmail store inp1.email = none)
    (hsame : lowerStr inp2.email = lowerStr inp1.email) :
    (createUserController ((createUserController store nid1 s1 inp1).2)
        nid2 s2 inp2).1 = .conflict
    ∧ (createUserController ((createUserController store nid1 s1 inp1).2)
        nid2 s2 inp2).1.status = 400
    ∧ (createUserController ((createUserController store nid1 s1 inp1).2)
        nid2 s2 inp2).2 = (createUserController store nid1 s1 inp1).2
    ∧ ((createUserController store nid1 s1 inp1).2).filter
        (fun u => lowerStr u.email == lowerStr inp1.email)
      = [registeredUser nid1 s1 inp1] := by
  have h1 : (createUserController store nid1 s1 inp1).2
      = store ++ [registeredUser nid1 s1 inp1] := by
    simp [createUserController, hfresh]
  have hpred : (fun u : User => lowerStr u.email == lowerStr inp2.email)
      = (fun u : User => lowerStr u.email == lowerStr inp1.email) := by
    funext u
    rw [hsame]
  have hfind2 : findUserByEmail (store ++ [registeredUser nid1 s1 inp1])
      inp2.email = some (registeredUser nid1 s1 inp1) := by
    unfold findUserByEmail at hfresh ⊢
    rw [hpred, List.find?_append, hfresh]
    simp [registeredUser]
  have hfilter : (store ++ [registeredUser nid1 s1 inp1]).filter
      (fun u => lowerStr u.email == lowerStr inp1.email)
      = [registeredUser nid1 s1 inp1] := by
    rw [List.filter_append]
    have hnil : store.filter (fun u => lowerStr u.email == lowerStr inp1.email)
        = [] := by
      rw [List.filter_eq_nil_iff]
      exact List.find?_eq_none.mp hfresh
    rw [hnil]
    simp [registeredUser]
  refine ⟨?_, ?_, ?_, ?_⟩
  · rw [h1]
    simp [createUserController, hfind2]
  · rw [h1]
    simp [createUserController, hfind2, RegisterResponse.status]
  · rw [h1]
    simp [createUserController, hfind2]
  · rw [h1]
    exact hfilter

/-- Witness for C6 at concrete inputs: the second registration uses a
case-variant of the first email. -/
theorem claim_C6_duplicate_registration_witness :
    (createUserController ((createUserController [] 1 "saltA"
        ⟨"John Doe", "john@example.com", "password123", "user"⟩).2)
        2 "saltB" ⟨"Jane Roe", "John@Example.com", "password456", "user"⟩).1
      = .conflict
    ∧ (createUserController ((createUserController [] 1 "saltA"
        ⟨"John Doe", "john@example.com", "password123", "user"⟩).2)
        2 "saltB" ⟨"Jane Roe", "John@Example.com", "password456", "user"⟩).1.status
      = 400
    ∧ (createUserController ((createUserController [] 1 "saltA"
        ⟨"John Doe", "john@example.com", "password123", "user"⟩).2)
        2 "saltB" ⟨"Jane Roe", "John@Example.com", "password456", "user"⟩).2
      = (createUserController [] 1 "saltA"
          ⟨"John Doe", "john@example.com", "password123", "user"⟩).2
    ∧ ((createUserController [] 1 "saltA"
        ⟨"John Doe", "john@example.com", "password123", "user"⟩).2).filter
        (fun u => lowerStr u.email == lowerStr "john@example.com")
      = [registeredUser 1 "saltA"
          ⟨"John Doe", "john@example.com", "password123", "user"⟩] :=
  claim_C6_duplicate_registration [] 1 2 "saltA" "saltB"
    ⟨"John Doe", "john@example.com", "password123", "user"⟩
    ⟨"Jane Roe", "John@Example.com", "password456", "user"⟩
    rfl (by decide)

/-- C1. For two distinct accounts A and B, a task owned by A is invisible
to B: the scoped point lookup under B answers none and the controller 404;
the listing under B never contains it (and contains only tasks owned by B);
update and delete under B answer NotFound and leave the store unchanged;
and the response for the foreign-owned task is identical to the response
after erasing that task from the store, so ownership mismatch is observably
the same as absence. Task ids are assumed pairwise distinct, as the store
assigns them as a primary key. -/
theorem claim_C1_ownership_isolation (store : List Task) (A B : Nat)
    (t : Task) (patch : Task → Task)
    (hAB : A ≠ B) (ht : t ∈ store) (hown : t.userId = A)
    (huniq : store.Pairwise (fun a b => a.id ≠ b.id)) :
    getTaskById store B t.id = none
    ∧ getTaskByIdController store B t.id = .notFound
    ∧ (getTaskByIdController store B t.id).status = 404
    ∧ t ∉ getAllTasks store B
    ∧ (∀ u ∈ getAllTasks store B, u.userId = B)
    ∧ (updateTask store B t.id patch).1 = .notFound
    ∧ (updateTask store B t.id patch).2 = store
    ∧ (deleteTask store B t.id).1 = .notFound
    ∧ (deleteTask store B t.id).2 = store
    ∧ getTaskByIdController store B t.id
      = getTaskByIdController (store.filter (fun u => u.id != t.id)) B t.id := by
  have hsym : Symmetric (fun a b : Task => a.id ≠ b.id) :=
    fun a b h => h.symm
  have hfind : store.find? (taskMatch B t.id) = none := by
    rw [List.find?_eq_none]
    intro u hu
    simp only [taskMatch, Bool.and_eq_true, beq_iff_eq, not_and]
    intro hid hB
    rcases eq_or_ne u t with rfl | hne
    · exact hAB (hown.symm.trans hB)
    · exact absurd hid (huniq.forall hsym hu ht hne)
  have hfind2 : (store.filter (fun u => u.id != t.id)).find?
      (taskMatch B t.id) = none := by
    rw [List.find?_eq_none]
    intro u hu
    exact List.find?_eq_none.mp hfind u (List.mem_filter.mp hu).1
  refine ⟨hfind, ?_, ?_, ?_, ?_, ?_, ?_, ?_, ?_, ?_⟩
  · simp [getTaskByIdController, getTaskById, hfind]
  · simp [getTaskByIdController, getTaskById, hfind, TaskGetResponse.status]
  · simp only [getAllTasks, List.mem_filter, beq_iff_eq, not_and]
    intro _ hB
    exact hAB (hown.symm.trans hB)
  · intro u hu
    have := (List.mem_filter.mp hu).2
    simpa using this
  · simp [updateTask, getTaskById, hfind]
  · simp [updateTask, getTaskById, hfind]
  · simp [deleteTask, getTaskById, hfind]
  · simp [deleteTask, getTaskById, hfind]
  · simp [getTaskByIdController, getTaskById, hfind, hfind2]

/-- Witness for C1 at concrete inputs: a store holding one task of account
1 and one of account 2, queried under account 2 for the task of account
1. -/
theorem claim_C1_ownership_isolation_witness :
    getTaskById
      [⟨10, "Task A", none, "todo", "HIGH", 1, none, false⟩,
       ⟨11, "Task B", none, "todo", "LOW", 2, none, false⟩] 2 10 = none
    ∧ getTaskByIdController
      [⟨10, "Task A", none, "todo", "HIGH", 1, none, false⟩,
       ⟨11, "Task B", none, "todo", "LOW", 2, none, false⟩] 2 10 = .notFound
    ∧ (getTaskByIdController
      [⟨10, "Task A", none, "todo", "HIGH", 1, none, false⟩,
       ⟨11, "Task B", none, "todo", "LOW", 2, none, false⟩] 2 10).status = 404
    ∧ (⟨10, "Task A", none, "todo", "HIGH", 1, none, false⟩ : Task)
      ∉ getAllTasks
        [⟨10, "Task A", none, "todo", "HIGH", 1, none, false⟩,
         ⟨11, "Task B", none, "todo", "LOW", 2, none, false⟩] 2
    ∧ (updateTask
      [⟨10, "Task A", none, "todo", "HIGH", 1, none, false⟩,
       ⟨11, "Task B", none, "todo", "LOW", 2, none, false⟩] 2 10 id).1
      = .notFound
    ∧ (deleteTask
      [⟨10, "Task A", none, "todo", "HIGH", 1, none, false⟩,
       ⟨11, "Task B", none, "todo", "LOW", 2, none, false⟩] 2 10).1
      = .notFound := by
  obtain ⟨h1, h2, h3, h4, -, h6, -, h8, -, -⟩ :=
    claim_C1_ownership_isolation
      [⟨10, "Task A", none, "todo", "HIGH", 1, none, false⟩,
       ⟨11, "Task B", none, "todo", "LOW", 2, none, false⟩] 1 2
      ⟨10, "Task A", none, "todo", "HIGH", 1, none, false⟩ id
      (by decide) (by simp) rfl (by simp)
  exact ⟨h1, h2, h3, h4, h6, h8⟩

/-- C8. For every owner, requesting the priority listing with a value
outside the enum LOW, MEDIUM, HIGH is answered 400 with body error Invalid
priority value, independently of the store contents (the store is not
consulted); with a valid priority it is answered 200 with exactly the
owned tasks whose priority equals the requested value. -/
theorem claim_C8_priority_filter (store store2 : List Task) (ownerId : Nat)
    (p : String) :
    (validPriority p = false →
      getTasksByPriorityController store ownerId p
        = .badRequest [("error", "Invalid priority value")]
      ∧ (getTasksByPriorityController store ownerId p).status = 400
      ∧ getTasksByPriorityController store ownerId p
        = getTasksByPriorityController store2 ownerId p)
    ∧ (validPriority p = true →
      getTasksByPriorityController store ownerId p
        = .ok (store.filter (fun t => t.userId == ownerId && t.priority == p))
      ∧ (getTasksByPriorityController store ownerId p).status = 200
      ∧ (∀ t : Task,
          t ∈ store.filter (fun t => t.userId == ownerId && t.priority == p)
          ↔ t ∈ store ∧ t.userId = ownerId ∧ t.priority = p)) := by
  constructor
  · intro hbad
    refine ⟨?_, ?_, ?_⟩ <;>
      simp [getTasksByPriorityController, hbad, PriorityResponse.status]
  · intro hgood
    refine ⟨?_, ?_, ?_⟩
    · simp [getTasksByPriorityController, hgood]
    · simp [getTasksByPriorityController, hgood, PriorityResponse.status]
    · intro t
      simp [List.mem_filter, and_assoc]

/-- Witness for C8 at concrete inputs: the invalid value INVALID and the
valid value HIGH over a two-task store. -/
theorem claim_C8_priority_filter_witness :
    (getTasksByPriorityController
      [⟨1, "High task", none, "todo", "HIGH", 7, none, false⟩,
       ⟨2, "Low task", none, "todo", "LOW", 7, none, false⟩] 7 "INVALID"
      = .badRequest [("error", "Invalid priority value")])
    ∧ (getTasksByPriorityController
      [⟨1, "High task", none, "todo", "HIGH", 7, none, false⟩,
       ⟨2, "Low task", none, "todo", "LOW", 7, none, false⟩] 7 "INVALID").status
      = 400
    ∧ (getTasksByPriorityController
      [⟨1, "High task", none, "todo", "HIGH", 7, none, false⟩,
       ⟨2, "Low task", none, "todo", "LOW", 7, none, false⟩] 7 "HIGH"
      = .ok ([⟨1, "High task", none, "todo", "HIGH", 7, none, false⟩,
              ⟨2, "Low task", none, "todo", "LOW", 7, none, false⟩].filter
          (fun t => t.userId == 7 && t.priority == "HIGH"))) := by
  obtain ⟨hbad, -⟩ :=
    claim_C8_priority_filter
      [⟨1, "High task", none, "todo", "HIGH", 7, none, false⟩,
       ⟨2, "Low task", none, "todo", "LOW", 7, none, false⟩] [] 7 "INVALID"
  obtain ⟨-, hgood⟩ :=
    claim_C8_priority_filter
      [⟨1, "High task", none, "todo", "HIGH", 7, none, false⟩,
       ⟨2, "Low task", none, "todo", "LOW", 7, none, false⟩] [] 7 "HIGH"
  obtain ⟨hb1, hb2, -⟩ := hbad (by decide)
  obtain ⟨hg1, -, -⟩ := hgood (by decide)
  exact ⟨hb1, hb2, hg1⟩

/-- Inside a live window that already counted k requests, a run of further
requests that all fall before the window end is admitted in full while the
cap is not exceeded, and the counter advances by the number of requests. -/
theorem admitAll_in_window (cfg : LimiterConfig) (s : Nat) (ts : List Nat) :
    ∀ k : Nat, k + ts.length ≤ cfg.max →
    (∀ t ∈ ts, t < s + cfg.window) →
    admitAll cfg (some ⟨s, k⟩) ts
      = (List.replicate ts.length .allowed, some ⟨s, k + ts.length⟩) := by
  induction ts with
  | nil =>
    intro k _ _
    simp [admitAll]
  | cons t ts ih =>
    intro k hcap hin
    have htw : ¬ (s + cfg.window ≤ t) := by
      have := hin t (List.mem_cons_self t ts)
      omega
    have hklt : k < cfg.max := by
      have hlen := hcap
      simp only [List.length_cons] at hlen
      omega
    have hstep : admitStep cfg (some ⟨s, k⟩) t = (.allowed, ⟨s, k + 1⟩) := by
      simp [admitStep, htw, hklt]
    have hrest := ih (k + 1)
      (by simp only [List.length_cons] at hcap; omega)
      (fun u hu => hin u (List.mem_cons_of_mem t hu))
    simp only [admitAll, hstep, hrest, List.length_cons, List.replicate_succ]
    rw [show k + 1 + ts.length = k + (ts.length + 1) from by omega]

/-- C3. With window 60 and cap N, a fresh client making N requests inside
the window is admitted N times, leaving the window counter at N; the
request after that inside the same window is rejected, and the pipeline of
src/server.ts (rate limiter mounted before all routes) answers it 429 with
an output independent of the downstream handler, so no account or token
logic influences the response; a request at or after the window end is
admitted again. -/
theorem claim_C3_rate_limiter (N : Nat) (hN : 1 ≤ N) (t0 tn tlate : Nat)
    (ts : List Nat) (hlen : ts.length = N - 1)
    (hts : ∀ t ∈ ts, t < t0 + 60)
    (hin : tn < t0 + 60)
    (hlate : t0 + 60 ≤ tlate) :
    admitAll ⟨60, N⟩ none (t0 :: ts)
      = (List.replicate N .allowed, some ⟨t0, N⟩)
    ∧ (admitStep ⟨60, N⟩ (some ⟨t0, N⟩) tn).1 = .rejected
    ∧ (∀ (α : Type) (d1 d2 : Unit → α),
        appPipeline ⟨60, N⟩ (some ⟨t0, N⟩) tn d1
          = appPipeline ⟨60, N⟩ (some ⟨t0, N⟩) tn d2)
    ∧ (∀ (α : Type) (d : Unit → α),
        (appPipeline ⟨60, N⟩ (some ⟨t0, N⟩) tn d).1 = Sum.inl 429)
    ∧ (admitStep ⟨60, N⟩ (some ⟨t0, N⟩) tlate).1 = .allowed := by
  have hreject : admitStep ⟨60, N⟩ (some ⟨t0, N⟩) tn = (.rejected, ⟨t0, N⟩) := by
    have hno : ¬ (t0 + 60 ≤ tn) := by omega
    simp [admitStep, hno]
  refine ⟨?_, ?_, ?_, ?_, ?_⟩
  · have hstep0 : admitStep ⟨60, N⟩ none t0 = (.allowed, ⟨t0, 1⟩) := rfl
    have hrest := admitAll_in_window ⟨60, N⟩ t0 ts 1
      (show 1 + ts.length ≤ N by omega) hts
    simp only [admitAll, hstep0, hrest]
    rw [show N = ts.length + 1 from by omega, List.replicate_succ,
      Nat.add_comm 1 ts.length]
  · rw [hreject]
  · intro α d1 d2
    simp [appPipeline, hreject]
  · intro α d
    simp [appPipeline, hreject]
  · have hyes : t0 + 60 ≤ tlate := hlate
    simp [admitStep, hyes]

/-- Witness for C3 at concrete inputs: cap 2, requests at times 0 and 10
admitted, a third at time 30 rejected with 429 before any downstream
logic, and one at time 60 admitted again. -/
theorem claim_C3_rate_limiter_witness :
    admitAll ⟨60, 2⟩ none [0, 10]
      = (List.replicate 2 .allowed, some ⟨0, 2⟩)
    ∧ (admitStep ⟨60, 2⟩ (some ⟨0, 2⟩) 30).1 = .rejected
    ∧ (appPipeline ⟨60, 2⟩ (some ⟨0, 2⟩) 30 (fun _ => (0 : Nat))).1
      = Sum.inl 429
    ∧ (admitStep ⟨60, 2⟩ (some ⟨0, 2⟩) 60).1 = .allowed := by
  obtain ⟨h1, h2, -, h4, h5⟩ :=
    claim_C3_rate_limiter 2 (by decide) 0 30 60 [10] rfl
      (by decide) (by decide) (by decide)
  exact ⟨h1, h2, h4 Nat (fun _ => 0), h5⟩

/-- C9 counterexample: the catch branch of the auth controller echoes the
message of the caught error into the 500 payload, so an internal error
whose message carries credential material (here the plaintext password the
integration tests register with) appears verbatim in the error body,
contradicting the claim that no 500 body ever contains such data. -/
theorem claim_C9_counterexample :
    authControllerCatch "password123" = (500, [("error", "password123")])
    ∧ "password123" ∈ (authControllerCatch "password123").2.map Prod.snd := by
  exact ⟨rfl, by decide⟩

/-- C9 (amended). Every unexpected service failure is surfaced as HTTP 500
by both the auth and the task controllers; the task controller answers
with the fixed generic body error Failed to fetch tasks, which mentions no
request or store data; the auth controller echoes the message of the
caught error, so its 500 payload is free of sensitive detail exactly when
that message is. -/
theorem claim_C9_internal_errors (msg : String) :
    (authControllerCatch msg).1 = 500
    ∧ tasksControllerCatch.1 = 500
    ∧ (authControllerCatch msg).2 = [("error", msg)]
    ∧ tasksControllerCatch.2 = [("error", "Failed to fetch tasks")]
    ∧ (∀ s ∈ tasksControllerCatch.2.map Prod.snd,
        s = "Failed to fetch tasks") := by
  refine ⟨rfl, rfl, rfl, rfl, ?_⟩
  intro s hs
  simpa [tasksControllerCatch] using hs

/-- Witness for C9 at concrete inputs. -/
theorem claim_C9_internal_errors_witness :
    (authControllerCatch "Database error").1 = 500
    ∧ tasksControllerCatch.1 = 500
    ∧ (authControllerCatch "Database error").2
      = [("error", "Database error")]
    ∧ tasksControllerCatch.2 = [("error", "Failed to fetch tasks")]
    ∧ "Failed to fetch tasks" = "Failed to fetch tasks" := by
  obtain ⟨h1, h2, h3, h4, h5⟩ := claim_C9_internal_errors "Database error"
  exact ⟨h1, h2, h3, h4, h5 "Failed to fetch tasks" (by decide)⟩

/-- C10. Every element of the admin listing GET /auth/users is the
sanitized account object: its keys are exactly id, fullname, email and
role, and no element carries a password key, for every set of stored
accounts. -/
theorem claim_C10_admin_listing_sanitized (store : List User) :
    (listUsersSanitized store).length = store.length
    ∧ (∀ body ∈ listUsersSanitized store,
        body.map Prod.fst = ["id", "fullname", "email", "role"])
    ∧ (∀ body ∈ listUsersSanitized store, ∀ kv ∈ body, kv.1 ≠ "password") := by
  refine ⟨by simp [listUsersSanitized], ?_, ?_⟩
  · intro body hbody
    obtain ⟨u, -, rfl⟩ := List.mem_map.mp hbody
    rfl
  · intro body hbody kv hkv
    obtain ⟨u, -, rfl⟩ := List.mem_map.mp hbody
    have hmem : kv.1 ∈ ["id", "fullname", "email", "role"] :=
      List.mem_map_of_mem Prod.fst hkv
    intro hcontra
    rw [hcontra] at hmem
    exact absurd hmem (by decide)

/-- Witness for C10 at concrete inputs. -/
theorem claim_C10_admin_listing_sanitized_witness :
    (listUsersSanitized
      [⟨1, "Admin User", "admin@example.com",
        bcryptHash 10 "sA" "admin123", "admin", true⟩,
       ⟨2, "User 1", "user1@example.com",
        bcryptHash 10 "sB" "password123", "user", true⟩]).length = 2
    ∧ (sanitizeUser ⟨2, "User 1", "user1@example.com",
        bcryptHash 10 "sB" "password123", "user", true⟩).map Prod.fst
      = ["id", "fullname", "email", "role"]
    ∧ ("id", toString (2 : Nat)).1 ≠ "password" := by
  obtain ⟨h1, h2, h3⟩ := claim_C10_admin_listing_sanitized
    [⟨1, "Admin User", "admin@example.com",
      bcryptHash 10 "sA" "admin123", "admin", true⟩,
     ⟨2, "User 1", "user1@example.com",
      bcryptHash 10 "sB" "password123", "user", true⟩]
  refine ⟨h1, h2 _ ?_, h3 (sanitizeUser ⟨2, "User 1", "user1@example.com",
    bcryptHash 10 "sB" "password123", "user", true⟩) ?_
    ("id", toString (2 : Nat)) (List.mem_cons_self _ _)⟩
  · exact List.mem_map_of_mem sanitizeUser (by simp)
  · exact List.mem_map_of_mem sanitizeUser (by simp)

end DevSecOps
